import Mathlib

/-!
Verification development for the XML_TO_XLSX repository.

The core pipeline (src/modules/xml_parser.py, src/modules/data_filter.py,
src/modules/data_formatter.py, src/utils/helpers.py) is shallowly embedded
below.  Python dictionaries produced by xmltodict are modelled by the mutual
inductive `Node`/`Entries`/`Items`; Python strings are Lean `String`s
manipulated as `List Char`; Python floats are modelled as exact rationals
(`Rat`); pandas DataFrames are modelled by `Table` (a column list plus rows
of cells).  Fallible Python code is modelled with `Option`/`Except`.
-/

/-! ## Character and string helpers

Python `str.strip`, `str.replace`, `re.sub` and substring tests are modelled
on `List Char`.  Python's default whitespace set for `strip` is modelled by
the ASCII whitespace characters below (Unicode whitespace is out of scope).
-/

/-- ASCII whitespace characters recognised by Python's `str.strip()` and
regex `\s` (Unicode whitespace not modelled). -/
def isPyWS (c : Char) : Bool :=
  c = ' ' || c = '\t' || c = '\n' || c = '\r' || c = '\x0b' || c = '\x0c'

/-- Python `s.strip()` on a character list. -/
def pyStrip (l : List Char) : List Char :=
  ((l.dropWhile isPyWS).reverse.dropWhile isPyWS).reverse

/-- Python `s.replace(".", "")`: remove every period. -/
def removeDots (l : List Char) : List Char :=
  l.filter (fun c => c ≠ '.')

/-- Python `s.replace(",", ".")`: replace every comma with a period. -/
def replaceCommaDot (l : List Char) : List Char :=
  l.map (fun c => if c = ',' then '.' else c)

/-- Does `pat` occur at the head of `l`? -/
def leadsWith : List Char → List Char → Bool
  | [], _ => true
  | _ :: _, [] => false
  | p :: ps, c :: cs => p = c && leadsWith ps cs

/-- Python `pat in s` (substring containment). -/
def strHasSub (s pat : String) : Bool :=
  s.toList.tails.any (fun t => leadsWith pat.toList t)

/-- Python `s.split(sep)[0]` for a non-empty separator: the text before the
first occurrence of `sep` (the whole text when `sep` does not occur). -/
def cutBefore (sep : List Char) : List Char → List Char
  | [] => []
  | c :: rest => if leadsWith sep (c :: rest) then [] else c :: cutBefore sep rest

/-- Python `s.split(".")` on a character list; always returns at least one
segment, and `"".split(".") = [""]`. -/
def splitDots : List Char → List (List Char)
  | [] => [[]]
  | c :: rest =>
    match splitDots rest with
    | [] => [[c]]
    | g :: gs => if c = '.' then [] :: g :: gs else (c :: g) :: gs

/-- Python `s.lower()` restricted to ASCII letters (the field names used by
the extractor only need ASCII case folding for the searched substrings). -/
def lowerChars (l : List Char) : List Char :=
  l.map Char.toLower

/-- `re.sub(r'\s+', ' ', s)`: collapse each maximal run of whitespace to a
single space.  The flag records whether the previous character was part of a
whitespace run already emitted as one space. -/
def collapseGo : Bool → List Char → List Char
  | _, [] => []
  | prevWS, c :: rest =>
    if isPyWS c then
      if prevWS then collapseGo true rest else ' ' :: collapseGo true rest
    else c :: collapseGo false rest

/-! ## The parsed-document tree

`xmltodict.parse` yields nested dictionaries, lists and text scalars; empty
elements become Python `None`.  `Node.null` models Python `None`,
`Node.num` models a Python float (it never occurs in a parsed tree but lets
the same type serve as the domain of the value coercers, which are also
applied to table cells). -/

mutual

inductive Node where
  | null : Node
  | scalar : String → Node
  | num : Rat → Node
  | map : Entries → Node
  | seq : Items → Node

inductive Entries where
  | nil : Entries
  | cons : String → Node → Entries → Entries

inductive Items where
  | nil : Items
  | cons : Node → Items → Items

end

/-- Python `dict.get(key)` on the ordered entry list (dict keys are unique
in Python; the first match is taken). -/
def lookupE : Entries → String → Option Node
  | Entries.nil, _ => Option.none
  | Entries.cons k v rest, key => if k = key then some v else lookupE rest key

/-! ## Tree Value Locator: `get_nested_value` (src/utils/helpers.py 75-107) -/

/-- The loop of `get_nested_value`: for each path segment, descend one map
level via `dict.get`; a missing key, a `None` value, or a non-map node with
segments remaining returns the default (absent). -/
def getLoop : List String → Node → Option Node
  | [], v => some v
  | key :: rest, v =>
    match v with
    | Node.map entries =>
      match lookupE entries key with
      | Option.none => Option.none
      | some Node.null => Option.none
      | some w => getLoop rest w
    | _ => Option.none

/-- `value == "" or str(value) == "None"`: the final normalization check of
`get_nested_value`.  Only a scalar compares equal to `""` in Python, and only
`None` (already filtered by the loop) or the literal string `"None"` has
`str(value) == "None"`: `str` of a dict or list starts with a bracket. -/
def isNoneLikeVal : Node → Bool
  | Node.scalar s => s = "" || s = "None"
  | Node.null => true
  | _ => false

/-- Python `key_path.split('.')` as a list of strings. -/
def pathSegs (key_path : String) : List String :=
  (splitDots key_path.toList).map List.asString

/-- `get_nested_value(data, key_path)` (src/utils/helpers.py 75-107):
descend along the dotted path, then normalize an empty-string or literal
`"None"` result to the default (absent, modelled as `Option.none`). -/
def get_nested_value (data : Node) (key_path : String) : Option Node :=
  match getLoop (pathSegs key_path) data with
  | Option.none => Option.none
  | some v => if isNoneLikeVal v then Option.none else some v

/-! ## Keyword search: `_search_recursive` (src/modules/xml_parser.py 154-192)

Python `return value` inside the dict loop returns the raw dict value, which
may itself be `None`; the caller cannot distinguish that from "not found",
so a returned `Node.null` collapses to `Option.none`. -/

/-- Collapse a returned Python `None` value into the not-found result. -/
def nodeToResult : Node → Option Node
  | Node.null => Option.none
  | v => some v

mutual

/-- `_search_recursive(data, keys, context)`: when `data` is a dict and a
context is given, first search the subtree at the context key (with the
context cleared); if that yields nothing the code falls through to the
general dict loop (context still set).  Lists recurse into their first
element only. -/
def searchRec : Node → List String → Option String → Option Node
  | Node.map entries, keys, some c =>
    (match searchCtx entries c keys with
     | some r => some r
     | Option.none => searchEntries entries keys (some c))
  | Node.map entries, keys, Option.none => searchEntries entries keys Option.none
  | Node.seq (Items.cons x _), keys, ctx => searchRec x keys ctx
  | _, _, _ => Option.none

/-- The context step: `if context in data: result = rec(data[context], keys, None)`.
Finds the first entry named `c` and searches its value without a context. -/
def searchCtx : Entries → String → List String → Option Node
  | Entries.nil, _, _ => Option.none
  | Entries.cons k v rest, c, keys =>
    if k = c then searchRec v keys Option.none else searchCtx rest c keys

/-- The dict loop of `_search_recursive`: a key in `keys` returns its value
immediately (even a `None` value, which the caller reads as not found);
otherwise recurse into the value with the context unchanged. -/
def searchEntries : Entries → List String → Option String → Option Node
  | Entries.nil, _, _ => Option.none
  | Entries.cons k v rest, keys, ctx =>
    if k ∈ keys then nodeToResult v
    else
      match searchRec v keys ctx with
      | some r => some r
      | Option.none => searchEntries rest keys ctx

end

/-! ## Currency coercion: `safe_float` (src/utils/helpers.py 109-132)

Python floats are modelled as exact rationals.  `pyFloat` models Python's
`float(str)` on the already-stripped text the coercer produces: an optional
sign, a decimal mantissa with at most one period and at least one digit, and
an optional exponent.  (Numeric-literal underscores and the `inf`/`nan`
spellings accepted by Python are not modelled; no input relevant to the
claims uses them.) -/

/-- Decimal digits to a natural number. -/
def digitsToNat (l : List Char) : Nat :=
  l.foldl (fun acc c => acc * 10 + (c.toNat - '0'.toNat)) 0

/-- The optional exponent tail of a float literal: `[+-]?digits`, end of
input required.  The mantissa arrives as an exact fraction `mant / den`. -/
def pyFloatExp (mant : Int) (den : Nat) (r : List Char) : Option Rat :=
  let p : Bool × List Char :=
    match r with
    | '+' :: t => (true, t)
    | '-' :: t => (false, t)
    | t => (true, t)
  let ds := p.2.takeWhile Char.isDigit
  let rest := p.2.dropWhile Char.isDigit
  if ds.isEmpty || !rest.isEmpty then Option.none
  else
    let e := digitsToNat ds
    if p.1 then some (mkRat (mant * (10 : Int) ^ e) den)
    else some (mkRat mant (den * 10 ^ e))

/-- Python `float(s)` on the text produced by the currency coercer; the
value is built as an exact rational. -/
def pyFloat (l : List Char) : Option Rat :=
  let s : Int × List Char :=
    match l with
    | '+' :: r => (1, r)
    | '-' :: r => (-1, r)
    | r => (1, r)
  let ip := s.2.takeWhile Char.isDigit
  let r1 := s.2.dropWhile Char.isDigit
  let fr : List Char × List Char :=
    match r1 with
    | '.' :: r => (r.takeWhile Char.isDigit, r.dropWhile Char.isDigit)
    | r => ([], r)
  if ip.isEmpty && fr.1.isEmpty then Option.none
  else
    let mant : Int := s.1 * ((digitsToNat ip * 10 ^ fr.1.length + digitsToNat fr.1 : Nat) : Int)
    let den : Nat := 10 ^ fr.1.length
    match fr.2 with
    | [] => some (mkRat mant den)
    | 'e' :: r3 => pyFloatExp mant den r3
    | 'E' :: r3 => pyFloatExp mant den r3
    | _ => Option.none

/-- `safe_float(value, default)` (src/utils/helpers.py 109-132): `None`,
`""` and text stripping to `"None"` or `""` return the default; a string is
stripped, periods removed, commas turned into periods, then parsed as a
float (parse failure returns the default); a numeric value passes through
(`float(x)` on a float is the identity).  `str` of a dict or list begins
with a bracket, so it escapes the string guard and `float()` raises, caught
as the default. -/
def safe_float (value : Node) (default : Rat) : Rat :=
  match value with
  | Node.null => default
  | Node.num q => q
  | Node.scalar s =>
    let l := s.toList
    let t := pyStrip l
    if l = [] ∨ t = "None".toList ∨ t = [] then default
    else
      match pyFloat (replaceCommaDot (removeDots t)) with
      | some q => q
      | Option.none => default
  | Node.map _ => default
  | Node.seq _ => default

/-- The spec's description of currency coercion of a string, written from
the spec's words for a refinement comparison with `safe_float`: strip
surrounding whitespace, remove all periods, replace commas with periods,
parse as a float, any failure yielding 0.0. -/
def currencySpec (s : String) : Rat :=
  (pyFloat (replaceCommaDot (removeDots (pyStrip s.toList)))).getD 0

/-! ## Date coercion: `parse_date` (src/utils/helpers.py 42-73)

`datetime.strptime` is modelled by per-format parsers.  The numeric field
classes follow CPython's strptime regexes: `%Y` is exactly four digits;
`%m`, `%d`, `%H`, `%M`, `%S` take two digits when the two-digit value is in
range, else one digit in range.  Calendar-day validation beyond the 1..31
range (month lengths, leap years) is not modelled; no claim depends on it. -/

structure PDate where
  year : Nat
  month : Nat
  day : Nat
  hour : Nat
  minute : Nat
  second : Nat
deriving DecidableEq, Repr

/-- Exactly `n` digits. -/
def pDigitsN (n : Nat) (l : List Char) : Option (Nat × List Char) :=
  let d := l.take n
  if d.length = n ∧ d.all Char.isDigit then some (digitsToNat d, l.drop n) else Option.none

/-- One or two digits with the strptime range rule. -/
def pNum2 (lo hi : Nat) : List Char → Option (Nat × List Char)
  | c1 :: c2 :: rest =>
    if c1.isDigit && c2.isDigit then
      let v2 := digitsToNat [c1, c2]
      if lo ≤ v2 ∧ v2 ≤ hi then some (v2, rest)
      else
        let v1 := digitsToNat [c1]
        if lo ≤ v1 ∧ v1 ≤ hi then some (v1, c2 :: rest) else Option.none
    else if c1.isDigit then
      let v1 := digitsToNat [c1]
      if lo ≤ v1 ∧ v1 ≤ hi then some (v1, c2 :: rest) else Option.none
    else Option.none
  | [c1] =>
    if c1.isDigit then
      let v1 := digitsToNat [c1]
      if lo ≤ v1 ∧ v1 ≤ hi then some (v1, []) else Option.none
    else Option.none
  | [] => Option.none

/-- A single literal character. -/
def pChar (c : Char) : List Char → Option (List Char)
  | x :: rest => if x = c then some rest else Option.none
  | [] => Option.none

/-- `HH:MM:SS`. -/
def pTime (l : List Char) : Option (Nat × Nat × Nat × List Char) := do
  let h ← pNum2 0 23 l
  let l1 ← pChar ':' h.2
  let mi ← pNum2 0 59 l1
  let l2 ← pChar ':' mi.2
  let s ← pNum2 0 59 l2
  some (h.1, mi.1, s.1, s.2)

/-- `%Y-%m-%d`. -/
def pDateISO (l : List Char) : Option (Nat × Nat × Nat × List Char) := do
  let y ← pDigitsN 4 l
  let l1 ← pChar '-' y.2
  let mo ← pNum2 1 12 l1
  let l2 ← pChar '-' mo.2
  let d ← pNum2 1 31 l2
  some (y.1, mo.1, d.1, d.2)

/-- `%d/%m/%Y`. -/
def pDateBR (l : List Char) : Option (Nat × Nat × Nat × List Char) := do
  let d ← pNum2 1 31 l
  let l1 ← pChar '/' d.2
  let mo ← pNum2 1 12 l1
  let l2 ← pChar '/' mo.2
  let y ← pDigitsN 4 l2
  some (y.1, mo.1, d.1, y.2)

/-- A date part followed by a separator and a time part, full match. -/
def pDateTime (pdate : List Char → Option (Nat × Nat × Nat × List Char))
    (sep : Char) (l : List Char) : Option PDate := do
  let d ← pdate l
  let l1 ← pChar sep d.2.2.2
  let t ← pTime l1
  if t.2.2.2.isEmpty then some ⟨d.1, d.2.1, d.2.2.1, t.1, t.2.1, t.2.2.1⟩
  else Option.none

/-- A bare date, full match, midnight time. -/
def pDateOnly (pdate : List Char → Option (Nat × Nat × Nat × List Char))
    (l : List Char) : Option PDate := do
  let d ← pdate l
  if d.2.2.2.isEmpty then some ⟨d.1, d.2.1, d.2.2.1, 0, 0, 0⟩ else Option.none

/-- `%Y%m%d`, full match. -/
def pCompact (l : List Char) : Option PDate := do
  let y ← pDigitsN 4 l
  let mo ← pNum2 1 12 y.2
  let d ← pNum2 1 31 mo.2
  if d.2.isEmpty then some ⟨y.1, mo.1, d.1, 0, 0, 0⟩ else Option.none

/-- `parse_date(date_string)` (src/utils/helpers.py 42-73): empty or
literal-`"None"` input returns null; otherwise the text before the first
`"-03:00"` and before the first `"+"` is stripped and the six formats are
tried in source order, the first full match winning. -/
def parse_date (date_string : String) : Option PDate :=
  if date_string = "" ∨ date_string = "None" then Option.none
  else
    let l := pyStrip (cutBefore "+".toList (cutBefore "-03:00".toList date_string.toList))
    match pDateTime pDateISO 'T' l with
    | some d => some d
    | Option.none =>
    match pDateTime pDateISO ' ' l with
    | some d => some d
    | Option.none =>
    match pDateTime pDateBR ' ' l with
    | some d => some d
    | Option.none =>
    match pDateOnly pDateISO l with
    | some d => some d
    | Option.none =>
    match pDateOnly pDateBR l with
    | some d => some d
    | Option.none => pCompact l

/-- The extractor calls `parse_date(str(value))` on the resolved tree value:
`str` of a text scalar is itself, `str(None)` is the literal `"None"`
(rejected by the guard), and `str` of a dict or list begins with a bracket
so no date format can match it. -/
def parse_date_node : Node → Option PDate
  | Node.scalar s => parse_date s
  | Node.null => parse_date "None"
  | _ => Option.none

/-! ## Field Extractor: `_extract_fields_enhanced` (src/modules/xml_parser.py 85-152) -/

/-- A cell of an Extracted Record / Consolidated Table: null, a raw tree
value, a coerced float, a parsed date, or the processing timestamp. -/
inductive CellVal where
  | null : CellVal
  | raw : Node → CellVal
  | num : Rat → CellVal
  | date : PDate → CellVal
  | time : CellVal

/-- The candidate-path loop: first path whose `get_nested_value` result is
non-absent wins (`get_nested_value` already normalizes `""`/`"None"` to
absent, so the loop's `value != ''` test never fires separately). -/
def tryPaths (tree : Node) : List String → Option Node
  | [] => Option.none
  | p :: rest =>
    match get_nested_value tree p with
    | some v => some v
    | Option.none => tryPaths tree rest

/-- ASCII lowering of a field name, for the `in field_name.lower()` tests. -/
def lowerStr (s : String) : String :=
  (lowerChars s.toList).asString

/-- The keyword-search fallback table keyed by substrings of the field name
(src/modules/xml_parser.py 112-130), in source order. -/
def fallbackSearch (tree : Node) (field_name : String) : Option Node :=
  if strHasSub field_name "Nota" || strHasSub field_name "Número" then
    searchRec tree ["nNF", "numero"] Option.none
  else if strHasSub field_name "Data" && strHasSub field_name "Emissão" then
    searchRec tree ["dhEmi", "dEmi", "dataEmissao"] Option.none
  else if strHasSub field_name "CNPJ" && strHasSub field_name "Emitente" then
    searchRec tree ["CNPJ"] (some "emit")
  else if strHasSub field_name "Nome" && strHasSub field_name "Emitente" then
    searchRec tree ["xNome", "nome"] (some "emit")
  else if strHasSub field_name "CNPJ" && strHasSub field_name "Destinatário" then
    searchRec tree ["CNPJ"] (some "dest")
  else if strHasSub field_name "Nome" && strHasSub field_name "Destinatário" then
    searchRec tree ["xNome", "nome"] (some "dest")
  else if strHasSub field_name "Valor Total" then
    searchRec tree ["vNF", "valorNF", "vTotal"] Option.none
  else if strHasSub field_name "Valor Produtos" then
    searchRec tree ["vProd", "valorProd"] Option.none
  else if strHasSub field_name "Chave" then
    searchRec tree ["chNFe", "chave"] Option.none
  else Option.none

/-- Steps 1-2 of the extractor for one field: candidate paths, then the
keyword-search fallback when all paths miss. -/
def resolve_value (tree : Node) (field_name : String) (paths : List String) : Option Node :=
  match tryPaths tree paths with
  | some v => some v
  | Option.none => fallbackSearch tree field_name

/-- Python `value == ''`: only a string compares equal to `''`. -/
def isEmptyStrNode : Node → Bool
  | Node.scalar s => s = ""
  | _ => false

/-- One field of `_extract_fields_enhanced`: resolve, then coerce — a name
containing `valor` or `total` (lowered) is coerced by `safe_float`; else a
name containing `data` is date-coerced, the RAW value being kept when
`parse_date` fails (`value = parsed_date if parsed_date else value`);
otherwise the raw value is stored.  An absent resolution stores null; an
empty-string value (possible via the fallback search) skips coercion and is
stored raw. -/
def extractField (tree : Node) (field_name : String) (paths : List String) : CellVal :=
  match resolve_value tree field_name paths with
  | Option.none => CellVal.null
  | some v =>
    if isEmptyStrNode v then CellVal.raw v
    else if strHasSub (lowerStr field_name) "valor" || strHasSub (lowerStr field_name) "total" then
      CellVal.num (safe_float v 0)
    else if strHasSub (lowerStr field_name) "data" then
      match parse_date_node v with
      | some dt => CellVal.date dt
      | Option.none => CellVal.raw v
    else CellVal.raw v

/-- The whole record: one entry per Field Mapping entry, in mapping order
(Python dict keys are unique, so appending in iteration order models the
dict build). -/
def extractRecord (mapping : List (String × List String)) (tree : Node) :
    List (String × CellVal) :=
  mapping.map (fun e => (e.1, extractField tree e.1 e.2))

/-! ## Batch Consolidator: `parse_multiple_xmls` (src/modules/xml_parser.py 17-49)

Decoding bytes and `xmltodict.parse` are third-party code, abstracted as a
`ParseOutcome`: either the parsed tree or a raised exception (malformed
XML).  `_parse_single_xml` catches that exception and returns `None`. -/

inductive ParseOutcome where
  | ok : Node → ParseOutcome
  | bad : ParseOutcome

/-- `_parse_single_xml` (src/modules/xml_parser.py 51-83): a parse failure
is caught and yields `None`; otherwise the extracted record plus the
`_arquivo_origem` provenance entry. -/
def parseSingle (mapping : List (String × List String)) (filename : String)
    (content : ParseOutcome) : Option (List (String × CellVal)) :=
  match content with
  | ParseOutcome.bad => Option.none
  | ParseOutcome.ok tree =>
    some (extractRecord mapping tree ++ [("_arquivo_origem", CellVal.raw (Node.scalar filename))])

/-- A Consolidated Table: pandas DataFrame columns plus rows of cells
aligned to the columns. -/
structure Table where
  cols : List String
  rows : List (List CellVal)

/-- `pd.DataFrame()`: the explicitly empty table. -/
def emptyTable : Table := ⟨[], []⟩

/-- One accumulation step of the column union: append the record's keys not
seen yet. -/
def colUnionGo (acc : List String) : List (List (String × CellVal)) → List String
  | [] => acc
  | r :: rest => colUnionGo (acc ++ (r.map Prod.fst).filter (fun k => !(acc.contains k))) rest

/-- `pd.DataFrame(records)` column set: union of record keys in order of
first appearance. -/
def colUnion (records : List (List (String × CellVal))) : List String :=
  colUnionGo [] records

/-- Row alignment: a record's value at a column, null (NaN) when the key is
missing. -/
def recLookup : List (String × CellVal) → String → CellVal
  | [], _ => CellVal.null
  | (k, v) :: rest, key => if k = key then v else recLookup rest key

/-- The table-construction tail of `parse_multiple_xmls`: an empty record
list returns `pd.DataFrame()`; otherwise the DataFrame is built from the
records (columns in first-appearance order, rows aligned) and the
`_data_processamento` timestamp column is appended (`astype(str)` on the
filename column is the identity here). -/
def buildTable (all_data : List (List (String × CellVal))) : Table :=
  if all_data.isEmpty then emptyTable
  else
    ⟨colUnion all_data ++ ["_data_processamento"],
     all_data.map (fun r => (colUnion all_data).map (recLookup r) ++ [CellVal.time])⟩

/-- `parse_multiple_xmls` (src/modules/xml_parser.py 17-49): skip documents
whose parse failed (every successful record is non-empty, so Python's
truthiness test keeps exactly the successes), then build the table. -/
def parse_multiple_xmls (mapping : List (String × List String))
    (xml_files : List (String × ParseOutcome)) : Table :=
  buildTable (xml_files.filterMap (fun f => parseSingle mapping f.1 f.2))

/-- The Field Mapping `DEFAULT_XML_FIELDS` (src/config.py 18-106). -/
def DEFAULT_XML_FIELDS : List (String × List String) :=
  [("Número da Nota",
    ["nfeProc.NFe.infNFe.ide.nNF", "NFe.infNFe.ide.nNF", "nfe.infNFe.ide.nNF",
     "infNFe.ide.nNF", "ide.nNF", "nNF", "numero"]),
   ("Data de Emissão",
    ["nfeProc.NFe.infNFe.ide.dhEmi", "NFe.infNFe.ide.dhEmi", "nfe.infNFe.ide.dhEmi",
     "infNFe.ide.dhEmi", "ide.dhEmi", "ide.dEmi", "dhEmi", "dEmi", "dataEmissao"]),
   ("CNPJ Emitente",
    ["nfeProc.NFe.infNFe.emit.CNPJ", "NFe.infNFe.emit.CNPJ", "nfe.infNFe.emit.CNPJ",
     "infNFe.emit.CNPJ", "emit.CNPJ", "emitente.CNPJ", "emitente.cnpj"]),
   ("Nome Emitente",
    ["nfeProc.NFe.infNFe.emit.xNome", "NFe.infNFe.emit.xNome", "nfe.infNFe.emit.xNome",
     "infNFe.emit.xNome", "emit.xNome", "emitente.xNome", "emitente.nome"]),
   ("CNPJ Destinatário",
    ["nfeProc.NFe.infNFe.dest.CNPJ", "NFe.infNFe.dest.CNPJ", "nfe.infNFe.dest.CNPJ",
     "infNFe.dest.CNPJ", "dest.CNPJ", "destinatario.CNPJ", "destinatario.cnpj"]),
   ("Nome Destinatário",
    ["nfeProc.NFe.infNFe.dest.xNome", "NFe.infNFe.dest.xNome", "nfe.infNFe.dest.xNome",
     "infNFe.dest.xNome", "dest.xNome", "destinatario.xNome", "destinatario.nome"]),
   ("Valor Total",
    ["nfeProc.NFe.infNFe.total.ICMSTot.vNF", "NFe.infNFe.total.ICMSTot.vNF",
     "nfe.infNFe.total.ICMSTot.vNF", "infNFe.total.ICMSTot.vNF", "total.ICMSTot.vNF",
     "ICMSTot.vNF", "vNF", "valorTotal", "valorNF"]),
   ("Valor Produtos",
    ["nfeProc.NFe.infNFe.total.ICMSTot.vProd", "NFe.infNFe.total.ICMSTot.vProd",
     "nfe.infNFe.total.ICMSTot.vProd", "infNFe.total.ICMSTot.vProd",
     "total.ICMSTot.vProd", "ICMSTot.vProd", "vProd", "valorProdutos"]),
   ("Chave NFe",
    ["nfeProc.protNFe.infProt.chNFe", "protNFe.infProt.chNFe", "nfeProc.NFe.infNFe.@Id",
     "NFe.infNFe.@Id", "nfe.infNFe.@Id", "infNFe.@Id", "chNFe", "chave"])]

/-! ## String cleaning: `_clean_string` (src/modules/data_formatter.py 105-120)
and `safe_string` (src/utils/helpers.py 134-147)

The inputs are object-column cells: a string or a null (`None`/`NaN`, both
caught by the same guard); non-string cells go through `str()` first, which
no claim exercises, so the domain is `Option String`. -/

/-- `_clean_string(text)`: null or text stripping to the exact literal
`"None"` becomes the empty string; otherwise strip, then collapse internal
whitespace runs to single spaces. -/
def clean_string (text : Option String) : String :=
  match text with
  | Option.none => ""
  | some s =>
    if pyStrip s.toList = "None".toList then ""
    else (collapseGo false (pyStrip s.toList)).asString

/-- `safe_string(value, default)`: null or text stripping to the exact
literal `"None"` becomes the default; otherwise the stripped text. -/
def safe_string (value : Option String) (default : String) : String :=
  match value with
  | Option.none => default
  | some s =>
    if pyStrip s.toList = "None".toList then default
    else (pyStrip s.toList).asString

/-! ## Tax-id formatting: `_format_document` (src/modules/data_formatter.py 79-103) -/

/-- `NN.NNN.NNN/NNNN-NN` over a 14-digit list. -/
def cnpjFmt (d : List Char) : List Char :=
  d.take 2 ++ ['.'] ++ (d.drop 2).take 3 ++ ['.'] ++ (d.drop 5).take 3 ++ ['/'] ++
    (d.drop 8).take 4 ++ ['-'] ++ d.drop 12

/-- `NNN.NNN.NNN-NN` over an 11-digit list. -/
def cpfFmt (d : List Char) : List Char :=
  d.take 3 ++ ['.'] ++ (d.drop 3).take 3 ++ ['.'] ++ (d.drop 6).take 3 ++ ['-'] ++ d.drop 9

/-- `re.sub(r'\D', '', s)` then the length dispatch of `_format_document`. -/
def fmtDocCore (l : List Char) : List Char :=
  let d := l.filter Char.isDigit
  if d.length = 14 then cnpjFmt d
  else if d.length = 11 then cpfFmt d
  else d

/-- `_format_document(doc)`: null, or text stripping to `"None"` or `""`,
becomes `""`; otherwise all non-digits are removed (`\D`, ASCII digits
modelled) and a 14-digit result is formatted as a CNPJ, an 11-digit result
as a CPF, anything else returned as the bare digit string. -/
def format_document (doc : Option String) : String :=
  match doc with
  | Option.none => ""
  | some s =>
    if pyStrip s.toList = "None".toList ∨ pyStrip s.toList = [] then ""
    else (fmtDocCore s.toList).asString

/-! ## Tabular Transform Stage (src/modules/data_filter.py,
src/modules/data_formatter.py 122-164)

Each operation's `try` block executes pandas code; the pandas library is
not part of this repository, so the block is abstracted as a fallible
`body : Table → Except Unit Table` argument, while the operation's pre-checks
and its `except` fallback are modelled concretely from the source.  For
`remove_duplicates` the interior is modelled concretely, since its one real
failure mode (an unknown column in `subset` raises `KeyError`) is visible at
this level. -/

/-- Cell value at a named column of a positional row (missing column reads
as null). -/
def cellAt (cols : List String) (row : List CellVal) (c : String) : CellVal :=
  match cols.indexOf? c with
  | some i => row.getD i CellVal.null
  | Option.none => CellVal.null

/-- `select_columns(df, columns)` (src/modules/data_filter.py 15-36): an
empty request returns the input; otherwise keep the requested columns that
exist, in request order; when NONE of them exist, log a warning and return
the input table unchanged. -/
def select_columns (df : Table) (columns : List String) : Table :=
  if columns.isEmpty then df
  else
    let available := columns.filter (fun c => df.cols.contains c)
    if available.isEmpty then df
    else ⟨available, df.rows.map (fun r => available.map (cellAt df.cols r))⟩

/-- `filter_by_date_range` (src/modules/data_filter.py 38-78): missing
column returns the input before the `try`; any exception in the body is
caught and the ORIGINAL input returned. -/
def filter_by_date_range (body : Table → Except Unit Table) (df : Table)
    (date_column : String) : Table :=
  if !(df.cols.contains date_column) then df
  else
    match body df with
    | Except.ok t => t
    | Except.error _ => df

/-- `filter_by_value_range` (src/modules/data_filter.py 80-120): same
shape as the date filter. -/
def filter_by_value_range (body : Table → Except Unit Table) (df : Table)
    (value_column : String) : Table :=
  if !(df.cols.contains value_column) then df
  else
    match body df with
    | Except.ok t => t
    | Except.error _ => df

/-- `filter_by_text` (src/modules/data_filter.py 122-154): missing column
or falsy (empty) search text returns the input; exceptions in the body are
caught and the input returned. -/
def filter_by_text (body : Table → Except Unit Table) (df : Table)
    (column search_text : String) : Table :=
  if !(df.cols.contains column) || search_text = "" then df
  else
    match body df with
    | Except.ok t => t
    | Except.error _ => df

mutual

/-- Structural equality of tree values (pandas cell equality for raw
values). -/
def beqNode : Node → Node → Bool
  | Node.null, Node.null => true
  | Node.scalar a, Node.scalar b => a = b
  | Node.num a, Node.num b => a = b
  | Node.map a, Node.map b => beqEntries a b
  | Node.seq a, Node.seq b => beqItems a b
  | _, _ => false

/-- Entry-list equality, mutual with `beqNode`. -/
def beqEntries : Entries → Entries → Bool
  | Entries.nil, Entries.nil => true
  | Entries.cons k v r, Entries.cons k2 v2 r2 => k = k2 && beqNode v v2 && beqEntries r r2
  | _, _ => false

/-- Item-list equality, mutual with `beqNode`. -/
def beqItems : Items → Items → Bool
  | Items.nil, Items.nil => true
  | Items.cons v r, Items.cons v2 r2 => beqNode v v2 && beqItems r r2
  | _, _ => false

end

/-- Cell equality, used by duplicate detection. -/
def beqCell : CellVal → CellVal → Bool
  | CellVal.null, CellVal.null => true
  | CellVal.raw a, CellVal.raw b => beqNode a b
  | CellVal.num a, CellVal.num b => a = b
  | CellVal.date a, CellVal.date b => a = b
  | CellVal.time, CellVal.time => true
  | _, _ => false

/-- Tuple equality of (projected) rows. -/
def beqRow (a b : List CellVal) : Bool :=
  a.length = b.length && (List.zip a b).all (fun p => beqCell p.1 p.2)

/-- `drop_duplicates(keep='first')`: keep each row whose projection was not
seen before, preserving order. -/
def dedupGo (proj : List CellVal → List CellVal) :
    List (List CellVal) → List (List CellVal) → List (List CellVal)
  | _, [] => []
  | seen, r :: rest =>
    if seen.any (fun s => beqRow s (proj r)) then dedupGo proj seen rest
    else r :: dedupGo proj (proj r :: seen) rest

/-- The `try` block of `remove_duplicates` (src/modules/data_filter.py
156-180): `df.drop_duplicates(subset=subset, keep='first')`, which raises
`KeyError` when `subset` names a column the table does not have. -/
def drop_duplicates_try (df : Table) (subset : Option (List String)) : Except Unit Table :=
  match subset with
  | Option.none => Except.ok ⟨df.cols, dedupGo (fun r => r) [] df.rows⟩
  | some sel =>
    if sel.all (fun c => df.cols.contains c) then
      Except.ok ⟨df.cols, dedupGo (fun r => sel.map (cellAt df.cols r)) [] df.rows⟩
    else Except.error ()

/-- `remove_duplicates` (src/modules/data_filter.py 156-180): the `except`
branch returns the input table. -/
def remove_duplicates (df : Table) (subset : Option (List String)) : Table :=
  match drop_duplicates_try df subset with
  | Except.ok t => t
  | Except.error _ => df

/-- `fill_missing_values` (src/modules/data_formatter.py 122-164): the
whole body (the "None" normalization and the strategy fills, abstracted)
runs inside `try`; the `except` branch returns the original input. -/
def fill_missing_values (body : Table → Except Unit Table) (df : Table) : Table :=
  match body df with
  | Except.ok t => t
  | Except.error _ => df

/-! ## Theorems for the claims -/

/-- Claim C1, counterexample: in a tree whose `dest` subtree holds no
`CNPJ` anywhere (the unscoped search of that subtree returns absent, second
conjunct), the context-scoped search `search(tree, ["CNPJ"], context="dest")`
nevertheless returns the value `"99"` that lives only under `emit` — the
claimed strict contextual containment does not hold. -/
theorem C1_counterexample :
    searchRec
      (Node.map (Entries.cons "dest"
        (Node.map (Entries.cons "x" (Node.scalar "1") Entries.nil))
        (Entries.cons "emit"
          (Node.map (Entries.cons "CNPJ" (Node.scalar "99") Entries.nil))
          Entries.nil)))
      ["CNPJ"] (some "dest")
      = some (Node.scalar "99")
    ∧ searchRec
        (Node.map (Entries.cons "x" (Node.scalar "1") Entries.nil))
        ["CNPJ"] Option.none
      = Option.none :=
  ⟨rfl, rfl⟩

/-- Claim C1, amended: the keyword search invoked with a context first
searches the subtree at the first occurrence of the context key and returns
a value found there with priority; but when nothing is found there (or the
context key is absent), it FALLS BACK to the general depth-first scan of
the whole map (context still threaded), which can return values from other
subtrees such as `emit`. -/
theorem C1_search_context_fallback (entries : Entries) (keys : List String) (c : String) :
    (∀ r, searchCtx entries c keys = some r →
      searchRec (Node.map entries) keys (some c) = some r) ∧
    (searchCtx entries c keys = Option.none →
      searchRec (Node.map entries) keys (some c) = searchEntries entries keys (some c)) := by
  constructor
  · intro r h
    rw [searchRec, h]
  · intro h
    rw [searchRec, h]

/-- Claim C1, witness: both branches of the amended statement at concrete
inputs — a context subtree that contains the key wins; a context subtree
without it makes the search fall through to the general scan. -/
theorem C1_search_context_fallback_witness :
    searchRec
      (Node.map (Entries.cons "c"
        (Node.map (Entries.cons "k" (Node.scalar "7") Entries.nil)) Entries.nil))
      ["k"] (some "c") = some (Node.scalar "7")
    ∧ searchRec (Node.map (Entries.cons "c" (Node.scalar "v") Entries.nil)) ["k"] (some "c")
      = searchEntries (Entries.cons "c" (Node.scalar "v") Entries.nil) ["k"] (some "c") :=
  ⟨(C1_search_context_fallback _ _ _).1 _ rfl,
   (C1_search_context_fallback _ _ _).2 rfl⟩

/-- Claim C2, counterexample: a path resolving to the literal text
`"none"` (lower case) is NOT normalized to absent — `get_nested_value`
returns it as a present value, refuting the claim that `"none"`/`"NONE"`
are treated like missing keys. -/
theorem C2_counterexample :
    get_nested_value (Node.map (Entries.cons "a" (Node.scalar "none") Entries.nil)) "a"
      = some (Node.scalar "none")
    ∧ some (Node.scalar "none") ≠ (Option.none : Option Node) :=
  ⟨rfl, Option.some_ne_none _⟩

/-- Claim C2, amended: the Locator normalizes a resolved empty string or
the EXACT literal `"None"` to absent, exactly as a missing key; a resolved
value not of that shape (in particular the literal texts `"none"` and
`"NONE"`) is returned as found. -/
theorem C2_locate_normalization (data : Node) (path : String) (v : Node)
    (h : getLoop (pathSegs path) data = some v) :
    (isNoneLikeVal v = true → get_nested_value data path = Option.none) ∧
    (isNoneLikeVal v = false → get_nested_value data path = some v) := by
  constructor <;> intro hv <;> simp [get_nested_value, h, hv]

/-- Claim C2, witness: the literal `"None"` is normalized to absent while
the literal `"NONE"` is returned as a value. -/
theorem C2_locate_normalization_witness :
    get_nested_value (Node.map (Entries.cons "a" (Node.scalar "None") Entries.nil)) "a"
      = Option.none
    ∧ get_nested_value (Node.map (Entries.cons "b" (Node.scalar "NONE") Entries.nil)) "b"
      = some (Node.scalar "NONE") :=
  ⟨(C2_locate_normalization
      (Node.map (Entries.cons "a" (Node.scalar "None") Entries.nil)) "a"
      (Node.scalar "None") rfl).1 rfl,
   (C2_locate_normalization
      (Node.map (Entries.cons "b" (Node.scalar "NONE") Entries.nil)) "b"
      (Node.scalar "NONE") rfl).2 rfl⟩

/-- Claim C7: each Tabular Transform Stage operation is total and, on any
internal error of its fallible interior (the pandas code inside the `try`
block, abstracted as `body`; for duplicate removal the concrete `KeyError`
of an unknown subset column), returns the input table unmodified instead of
raising. -/
theorem C7_transform_totality :
    (∀ body df c, body df = Except.error () → filter_by_date_range body df c = df) ∧
    (∀ body df c, body df = Except.error () → filter_by_value_range body df c = df) ∧
    (∀ body df c t, body df = Except.error () → filter_by_text body df c t = df) ∧
    (∀ df subset, drop_duplicates_try df subset = Except.error () →
      remove_duplicates df subset = df) ∧
    (∀ body df, body df = Except.error () → fill_missing_values body df = df) := by
  refine ⟨?_, ?_, ?_, ?_, ?_⟩
  · intro body df c h
    unfold filter_by_date_range
    split
    · rfl
    · rw [h]
  · intro body df c h
    unfold filter_by_value_range
    split
    · rfl
    · rw [h]
  · intro body df c t h
    unfold filter_by_text
    split
    · rfl
    · rw [h]
  · intro df subset h
    unfold remove_duplicates
    rw [h]
  · intro body df h
    unfold fill_missing_values
    rw [h]

/-- Claim C7, witness: each of the five operations applied at a concrete
table with a failing interior returns that table. -/
theorem C7_transform_totality_witness :
    filter_by_date_range (fun _ => Except.error ()) ⟨["a"], [[CellVal.null]]⟩ "a"
      = ⟨["a"], [[CellVal.null]]⟩
    ∧ filter_by_value_range (fun _ => Except.error ()) ⟨["a"], [[CellVal.null]]⟩ "a"
      = ⟨["a"], [[CellVal.null]]⟩
    ∧ filter_by_text (fun _ => Except.error ()) ⟨["a"], [[CellVal.null]]⟩ "a" "x"
      = ⟨["a"], [[CellVal.null]]⟩
    ∧ remove_duplicates ⟨["a"], [[CellVal.null]]⟩ (some ["zz"]) = ⟨["a"], [[CellVal.null]]⟩
    ∧ fill_missing_values (fun _ => Except.error ()) ⟨["a"], [[CellVal.null]]⟩
      = ⟨["a"], [[CellVal.null]]⟩ :=
  ⟨C7_transform_totality.1 _ _ _ rfl,
   C7_transform_totality.2.1 _ _ _ rfl,
   C7_transform_totality.2.2.1 _ _ _ _ rfl,
   C7_transform_totality.2.2.2.1 _ _ rfl,
   C7_transform_totality.2.2.2.2 _ _ rfl⟩

/-- Claim C9, counterexample: selecting only the nonexistent column `"b"`
from a one-column, one-row table returns the FULL input table (still one
row, with its original column), not an explicit empty-result — refuting the
claim that the operation surfaces an empty-result signal in this case. -/
theorem C9_counterexample :
    select_columns ⟨["a"], [[CellVal.null]]⟩ ["b"] = ⟨["a"], [[CellVal.null]]⟩
    ∧ (Table.mk ["a"] [[CellVal.null]]).rows.length = 1 :=
  ⟨rfl, rfl⟩

/-- Claim C9, amended: when a non-empty column selection matches none of
the table's columns, `select_columns` logs a warning and returns the input
table unchanged (the full unselected table), rather than an empty result or
an error. -/
theorem C9_select_columns_amended (df : Table) (columns : List String)
    (_hne : columns.isEmpty = false)
    (hnone : (columns.filter (fun c => df.cols.contains c)).isEmpty = true) :
    select_columns df columns = df := by
  unfold select_columns
  split
  · rfl
  · simp only [hnone, if_true]

/-- Claim C9, witness: a concrete selection of absent columns returns the
input table. -/
theorem C9_select_columns_amended_witness :
    select_columns ⟨["x"], ([] : List (List CellVal))⟩ ["y", "z"]
      = ⟨["x"], ([] : List (List CellVal))⟩ :=
  C9_select_columns_amended _ _ rfl rfl

/-- Claim C3, counterexample: the field `"Data de Emissão"` (date coercion
applies) resolved to the raw text `"hello"`, which matches no date format;
the Extracted Record stores the RAW text, not null — refuting the claim
that a failed date parse stores null. -/
theorem C3_counterexample :
    extractField
      (Node.map (Entries.cons "dhEmi" (Node.scalar "hello") Entries.nil))
      "Data de Emissão"
      ["nfeProc.NFe.infNFe.ide.dhEmi", "NFe.infNFe.ide.dhEmi", "nfe.infNFe.ide.dhEmi",
       "infNFe.ide.dhEmi", "ide.dhEmi", "ide.dEmi", "dhEmi", "dEmi", "dataEmissao"]
      = CellVal.raw (Node.scalar "hello")
    ∧ CellVal.raw (Node.scalar "hello") ≠ CellVal.null :=
  ⟨rfl, fun h => CellVal.noConfusion h⟩

/-- Claim C3, amended: for a field whose lowered name contains `"data"`
(and not `"valor"`/`"total"`), when the resolved raw value matches none of
the date formats the extractor keeps the RAW unparsed value in the record
(`value = parsed_date if parsed_date else value`); no error propagates
(the extractor is total). -/
theorem C3_date_coercion_keeps_raw (tree : Node) (field_name : String)
    (paths : List String) (v : Node)
    (hres : resolve_value tree field_name paths = some v)
    (hne : isEmptyStrNode v = false)
    (hmon : (strHasSub (lowerStr field_name) "valor"
             || strHasSub (lowerStr field_name) "total") = false)
    (hdate : strHasSub (lowerStr field_name) "data" = true)
    (hparse : parse_date_node v = Option.none) :
    extractField tree field_name paths = CellVal.raw v := by
  simp [extractField, hres, hne, hmon, hdate, hparse]

/-- Claim C3, witness: the amended statement at a concrete unparseable
date value. -/
theorem C3_date_coercion_keeps_raw_witness :
    extractField (Node.map (Entries.cons "dEmi" (Node.scalar "31/02/abc") Entries.nil))
      "Data de Emissão" ["ide.dhEmi", "dEmi"]
      = CellVal.raw (Node.scalar "31/02/abc") :=
  C3_date_coercion_keeps_raw
    (Node.map (Entries.cons "dEmi" (Node.scalar "31/02/abc") Entries.nil))
    "Data de Emissão" ["ide.dhEmi", "dEmi"] (Node.scalar "31/02/abc")
    rfl rfl rfl rfl rfl

/-- Does this document parse? -/
def isOkOutcome : ParseOutcome → Bool
  | ParseOutcome.ok _ => true
  | ParseOutcome.bad => false

/-- Number of documents of a batch whose parse succeeds. -/
def countOk : List (String × ParseOutcome) → Nat
  | [] => 0
  | f :: rest => (if isOkOutcome f.2 then 1 else 0) + countOk rest

/-- Number of malformed documents of a batch. -/
def countBad : List (String × ParseOutcome) → Nat
  | [] => 0
  | f :: rest => (if isOkOutcome f.2 then 0 else 1) + countBad rest

/-- Well-formed and malformed documents partition the batch. -/
theorem countOk_add_countBad (files : List (String × ParseOutcome)) :
    countOk files + countBad files = files.length := by
  induction files with
  | nil => rfl
  | cons f rest ih =>
    show ((if isOkOutcome f.2 then 1 else 0) + countOk rest)
        + ((if isOkOutcome f.2 then 0 else 1) + countBad rest) = rest.length + 1
    cases isOkOutcome f.2 <;> simp <;> omega

/-- The record list retained by the batch loop has one element per document
whose parse succeeded. -/
theorem length_all_data (mapping : List (String × List String))
    (files : List (String × ParseOutcome)) :
    (files.filterMap (fun f => parseSingle mapping f.1 f.2)).length = countOk files := by
  induction files with
  | nil => rfl
  | cons f rest ih =>
    obtain ⟨fn, fc⟩ := f
    cases fc with
    | ok tree =>
      show (List.filterMap (fun f => parseSingle mapping f.1 f.2) rest).length + 1
          = 1 + countOk rest
      omega
    | bad =>
      show (List.filterMap (fun f => parseSingle mapping f.1 f.2) rest).length
          = 0 + countOk rest
      omega

/-- The Consolidated Table has exactly one row per successfully parsed
document. -/
theorem parse_rows_length (mapping : List (String × List String))
    (files : List (String × ParseOutcome)) :
    (parse_multiple_xmls mapping files).rows.length = countOk files := by
  rw [← length_all_data mapping files]
  unfold parse_multiple_xmls buildTable
  split
  · next h =>
    simp only [List.isEmpty_iff] at h
    simp [emptyTable, h]
  · simp

/-- Claim C5: a batch in which exactly one document is malformed yields a
table with one row fewer than the number of documents and raises no error
(the consolidator is a total function); a batch in which zero documents
yield a record returns the explicitly empty table `pd.DataFrame()`. -/
theorem C5_batch_resilience (mapping : List (String × List String))
    (files : List (String × ParseOutcome)) :
    (countBad files = 1 →
      (parse_multiple_xmls mapping files).rows.length = files.length - 1) ∧
    (countOk files = 0 → parse_multiple_xmls mapping files = emptyTable) := by
  constructor
  · intro hbad
    rw [parse_rows_length]
    have hsum := countOk_add_countBad files
    omega
  · intro hok
    have hlen := length_all_data mapping files
    rw [hok, List.length_eq_zero] at hlen
    unfold parse_multiple_xmls buildTable
    rw [hlen]
    rfl

/-- Claim C5, witness: a two-document batch with one malformed member
yields one row; an all-malformed batch yields the empty table. -/
theorem C5_batch_resilience_witness :
    (parse_multiple_xmls DEFAULT_XML_FIELDS
      [("good.xml", ParseOutcome.ok (Node.map Entries.nil)), ("bad.xml", ParseOutcome.bad)]).rows.length
      = 2 - 1
    ∧ parse_multiple_xmls DEFAULT_XML_FIELDS [("bad.xml", ParseOutcome.bad)] = emptyTable :=
  ⟨(C5_batch_resilience DEFAULT_XML_FIELDS _).1 (by decide),
   (C5_batch_resilience DEFAULT_XML_FIELDS _).2 (by decide)⟩

/-- Claim C6: currency coercion passes a numeric value through unchanged;
a string is stripped of surrounding whitespace, has all periods removed and
commas replaced by periods, and is then parsed as a float with any failure
yielding 0.0 (the two early guards of `safe_float` coincide with parse
failures, so the code equals the spec's pipeline `currencySpec`); in
particular `"1.234,56"` coerces to `1234.56` and `"abc"` to `0.0`.  The
coercion is a total function, so nothing is raised to the caller. -/
theorem C6_currency_coercion :
    (∀ q d, safe_float (Node.num q) d = q) ∧
    (∀ s, safe_float (Node.scalar s) 0 = currencySpec s) ∧
    safe_float (Node.scalar "1.234,56") 0 = (123456 : Rat) / 100 ∧
    safe_float (Node.scalar "abc") 0 = 0 := by
  refine ⟨fun q d => rfl, ?_, ?_, by decide⟩
  · intro s
    simp only [safe_float, currencySpec]
    split
    · next h =>
      rcases h with h | h | h
      · have ht : pyStrip s.toList = [] := by rw [h]; rfl
        rw [ht]
        rfl
      · rw [h]
        rfl
      · rw [h]
        rfl
    · cases pyFloat (replaceCommaDot (removeDots (pyStrip s.toList))) <;> rfl
  · have h : safe_float (Node.scalar "1.234,56") 0 = mkRat 123456 100 := by decide
    rw [h, Rat.mkRat_eq_div]
    norm_num

/-- The keys of an Extracted Record are exactly the Field Mapping's field
names, in order. -/
theorem keys_extractRecord (mapping : List (String × List String)) (tree : Node) :
    (extractRecord mapping tree).map Prod.fst = mapping.map Prod.fst := by
  unfold extractRecord
  rw [List.map_map]
  rfl

/-- A key already present contributes nothing to the union step. -/
theorem colUnion_step_const (K : List String) (r : List (String × CellVal))
    (h : r.map Prod.fst = K) :
    K ++ (r.map Prod.fst).filter (fun k => !(K.contains k)) = K := by
  rw [h]
  have hnil : K.filter (fun k => !(K.contains k)) = [] := by
    rw [List.filter_eq_nil_iff]
    intro a ha
    simp [ha]
  rw [hnil, List.append_nil]

/-- Accumulating records whose key list is already the accumulator leaves
it unchanged. -/
theorem colUnionGo_const (K : List String) :
    ∀ records : List (List (String × CellVal)),
      (∀ r ∈ records, r.map Prod.fst = K) → colUnionGo K records = K := by
  intro records
  induction records with
  | nil => intro _; rfl
  | cons r rest ih =>
    intro hall
    show colUnionGo (K ++ (r.map Prod.fst).filter (fun k => !(K.contains k))) rest = K
    rw [colUnion_step_const K r (hall r (by simp))]
    exact ih (fun r2 hr2 => hall r2 (by simp [hr2]))

/-- When every record has the same key list `K`, the column union is `K`. -/
theorem colUnion_const (K : List String) (r0 : List (String × CellVal))
    (rest : List (List (String × CellVal)))
    (hall : ∀ r ∈ r0 :: rest, r.map Prod.fst = K) :
    colUnion (r0 :: rest) = K := by
  unfold colUnion
  show colUnionGo (([] : List String) ++ (r0.map Prod.fst).filter
    (fun k => !(([] : List String).contains k))) rest = K
  have h0 : (([] : List String) ++ (r0.map Prod.fst).filter
      (fun k => !(([] : List String).contains k))) = K := by
    rw [hall r0 (by simp)]
    simp
  rw [h0]
  exact colUnionGo_const K rest (fun r2 hr2 => hall r2 (by simp [hr2]))

/-- Claim C4, counterexample: for the empty batch (more generally, any
batch in which no document yields a record) the Consolidated Table is the
explicitly empty `pd.DataFrame()`, whose column set is empty, NOT the Field
Mapping's field names plus the provenance fields — so the column-stability
statement does not hold for EVERY batch. -/
theorem C4_counterexample :
    (parse_multiple_xmls DEFAULT_XML_FIELDS []).cols = []
    ∧ DEFAULT_XML_FIELDS.map Prod.fst ++ ["_arquivo_origem", "_data_processamento"] ≠ [] :=
  ⟨rfl, by decide⟩

/-- Claim C4, amended: every Extracted Record contains every field name of
the Field Mapping as a key plus the filename provenance key, in that fixed
order (second conjunct, unconditional); and for every batch in which at
least one document yields a record, the Consolidated Table's columns are
exactly the Field Mapping's field names followed by the two provenance
fields, regardless of which fields the documents contained. -/
theorem C4_column_stability (mapping : List (String × List String))
    (files : List (String × ParseOutcome))
    (hok : 0 < countOk files) :
    ((parse_multiple_xmls mapping files).cols
      = mapping.map Prod.fst ++ ["_arquivo_origem", "_data_processamento"]) ∧
    (∀ fn tree,
      (extractRecord mapping tree
        ++ [("_arquivo_origem", CellVal.raw (Node.scalar fn))]).map Prod.fst
      = mapping.map Prod.fst ++ ["_arquivo_origem"]) := by
  have hrec : ∀ fn tree,
      (extractRecord mapping tree
        ++ [("_arquivo_origem", CellVal.raw (Node.scalar fn))]).map Prod.fst
      = mapping.map Prod.fst ++ ["_arquivo_origem"] := by
    intro fn tree
    rw [List.map_append, keys_extractRecord]
    rfl
  refine ⟨?_, hrec⟩
  have hkeys : ∀ r ∈ files.filterMap (fun f => parseSingle mapping f.1 f.2),
      r.map Prod.fst = mapping.map Prod.fst ++ ["_arquivo_origem"] := by
    intro r hr
    rcases List.mem_filterMap.mp hr with ⟨f, _, hpf⟩
    obtain ⟨fn, fc⟩ := f
    cases fc with
    | bad => exact absurd hpf (by simp [parseSingle])
    | ok tree =>
      have hr2 : extractRecord mapping tree
          ++ [("_arquivo_origem", CellVal.raw (Node.scalar fn))] = r := by
        simpa [parseSingle] using hpf
      rw [← hr2]
      exact hrec fn tree
  have hne : files.filterMap (fun f => parseSingle mapping f.1 f.2) ≠ [] := by
    intro hcontra
    have hl := length_all_data mapping files
    rw [hcontra] at hl
    simp at hl
    omega
  unfold parse_multiple_xmls
  cases had : files.filterMap (fun f => parseSingle mapping f.1 f.2) with
  | nil => exact absurd had hne
  | cons r0 rest =>
    rw [had] at hkeys
    unfold buildTable
    rw [if_neg (by simp)]
    show colUnion (r0 :: rest) ++ ["_data_processamento"] = _
    rw [colUnion_const (mapping.map Prod.fst ++ ["_arquivo_origem"]) r0 rest hkeys]
    rw [List.append_assoc]
    rfl

/-- Claim C4, witness: a one-document batch over the default Field Mapping
has exactly the mapping's field names plus the two provenance columns. -/
theorem C4_column_stability_witness :
    (parse_multiple_xmls DEFAULT_XML_FIELDS
      [("a.xml", ParseOutcome.ok (Node.map Entries.nil))]).cols
    = DEFAULT_XML_FIELDS.map Prod.fst ++ ["_arquivo_origem", "_data_processamento"] :=
  (C4_column_stability DEFAULT_XML_FIELDS
    [("a.xml", ParseOutcome.ok (Node.map Entries.nil))] (by decide)).1

/-- Claim C8, counterexample: the literal text `"none"` (lower case) is NOT
normalized to the empty string — `_clean_string` returns it trimmed as an
ordinary string, and `safe_string` likewise returns `"NONE"` — refuting the
any-letter-casing part of the claim. -/
theorem C8_counterexample :
    clean_string (some "none") = "none"
    ∧ safe_string (some "NONE") "" = "NONE"
    ∧ ("none" : String) ≠ "" := by
  refine ⟨by decide, by decide, by decide⟩

/-- Claim C8, amended: null and text stripping to the EXACT literal
`"None"` normalize to the empty string (or the given default); every other
string — including `"none"` and `"NONE"`, which are treated as ordinary
text — is trimmed of surrounding whitespace, and `_clean_string` also
collapses internal whitespace runs to single spaces. -/
theorem C8_string_cleaning (s : String) :
    (clean_string Option.none = "") ∧
    (∀ d, safe_string Option.none d = d) ∧
    (pyStrip s.toList = "None".toList →
      clean_string (some s) = "" ∧ ∀ d, safe_string (some s) d = d) ∧
    (pyStrip s.toList ≠ "None".toList →
      clean_string (some s) = (collapseGo false (pyStrip s.toList)).asString ∧
      ∀ d, safe_string (some s) d = (pyStrip s.toList).asString) := by
  refine ⟨rfl, fun d => rfl, fun h => ⟨?_, fun d => ?_⟩, fun h => ⟨?_, fun d => ?_⟩⟩
  · show (if pyStrip s.toList = "None".toList then ""
      else (collapseGo false (pyStrip s.toList)).asString) = ""
    rw [if_pos h]
  · show (if pyStrip s.toList = "None".toList then d
      else (pyStrip s.toList).asString) = d
    rw [if_pos h]
  · show (if pyStrip s.toList = "None".toList then ""
      else (collapseGo false (pyStrip s.toList)).asString)
      = (collapseGo false (pyStrip s.toList)).asString
    rw [if_neg h]
  · show (if pyStrip s.toList = "None".toList then d
      else (pyStrip s.toList).asString) = (pyStrip s.toList).asString
    rw [if_neg h]

/-- Claim C8, witness: whitespace-surrounded `"None"` cleans to empty;
`"a   b"` is trimmed with its internal run collapsed. -/
theorem C8_string_cleaning_witness :
    clean_string (some " None ") = ""
    ∧ clean_string (some "a   b") = (collapseGo false (pyStrip "a   b".toList)).asString :=
  ⟨((C8_string_cleaning " None ").2.2.1 (by decide)).1,
   ((C8_string_cleaning "a   b").2.2.2 (by decide)).1⟩

/-- A digit is not whitespace. -/
theorem digit_not_ws (c : Char) (h : c.isDigit = true) : isPyWS c = false := by
  cases hw : isPyWS c
  · rfl
  · exfalso
    have hc : c = ' ' ∨ c = '\t' ∨ c = '\n' ∨ c = '\r' ∨ c = '\x0b' ∨ c = '\x0c' := by
      simpa [isPyWS, or_assoc] using hw
    rcases hc with rfl | rfl | rfl | rfl | rfl | rfl <;> exact absurd h (by decide)

/-- Dropping leading whitespace from a whitespace-free list is the
identity. -/
theorem dropWhile_ws_eq_self (l : List Char) (h : ∀ c ∈ l, isPyWS c = false) :
    l.dropWhile isPyWS = l := by
  cases l with
  | nil => rfl
  | cons c rest =>
    rw [List.dropWhile_cons, h c (by simp)]
    simp

/-- Stripping a whitespace-free list is the identity. -/
theorem pyStrip_eq_self (l : List Char) (h : ∀ c ∈ l, isPyWS c = false) :
    pyStrip l = l := by
  unfold pyStrip
  rw [dropWhile_ws_eq_self l h,
      dropWhile_ws_eq_self l.reverse (fun c hc => h c (List.mem_reverse.mp hc)),
      List.reverse_reverse]

/-- Filtering digits from an all-digit list is the identity. -/
theorem filter_digits_self (l : List Char) (h : ∀ c ∈ l, c.isDigit = true) :
    l.filter Char.isDigit = l :=
  List.filter_eq_self.mpr h

/-- Every character surviving the digit filter is a digit. -/
theorem digits_all (l : List Char) : ∀ c ∈ l.filter Char.isDigit, c.isDigit = true :=
  fun _ hc => (List.mem_filter.mp hc).2

/-- A taken-then-dropped slice glues back onto the tail. -/
theorem slice_concat (d : List Char) (a b : Nat) :
    (d.drop a).take b ++ d.drop (a + b) = d.drop a := by
  have h : d.drop (a + b) = (d.drop a).drop b := by
    rw [List.drop_drop, Nat.add_comm]
  rw [h, List.take_append_drop]

/-- The digits of a formatted CNPJ are the original 14 digits. -/
theorem filter_digits_cnpjFmt (d : List Char) (h : ∀ c ∈ d, c.isDigit = true) :
    (cnpjFmt d).filter Char.isDigit = d := by
  unfold cnpjFmt
  simp only [List.filter_append]
  rw [filter_digits_self (d.take 2) (fun c hc => h c (List.take_subset _ _ hc)),
      filter_digits_self ((d.drop 2).take 3)
        (fun c hc => h c (List.drop_subset _ _ (List.take_subset _ _ hc))),
      filter_digits_self ((d.drop 5).take 3)
        (fun c hc => h c (List.drop_subset _ _ (List.take_subset _ _ hc))),
      filter_digits_self ((d.drop 8).take 4)
        (fun c hc => h c (List.drop_subset _ _ (List.take_subset _ _ hc))),
      filter_digits_self (d.drop 12) (fun c hc => h c (List.drop_subset _ _ hc))]
  have h1 : List.filter Char.isDigit ['.'] = [] := rfl
  have h2 : List.filter Char.isDigit ['/'] = [] := rfl
  have h3 : List.filter Char.isDigit ['-'] = [] := rfl
  rw [h1, h2, h3]
  simp only [List.append_nil, List.nil_append, List.append_assoc]
  have s3 : (d.drop 8).take 4 ++ d.drop 12 = d.drop 8 := by
    have := slice_concat d 8 4
    norm_num at this
    exact this
  have s2 : (d.drop 5).take 3 ++ d.drop 8 = d.drop 5 := by
    have := slice_concat d 5 3
    norm_num at this
    exact this
  have s1 : (d.drop 2).take 3 ++ d.drop 5 = d.drop 2 := by
    have := slice_concat d 2 3
    norm_num at this
    exact this
  rw [s3, s2, s1, List.take_append_drop]

/-- The digits of a formatted CPF are the original 11 digits. -/
theorem filter_digits_cpfFmt (d : List Char) (h : ∀ c ∈ d, c.isDigit = true) :
    (cpfFmt d).filter Char.isDigit = d := by
  unfold cpfFmt
  simp only [List.filter_append]
  rw [filter_digits_self (d.take 3) (fun c hc => h c (List.take_subset _ _ hc)),
      filter_digits_self ((d.drop 3).take 3)
        (fun c hc => h c (List.drop_subset _ _ (List.take_subset _ _ hc))),
      filter_digits_self ((d.drop 6).take 3)
        (fun c hc => h c (List.drop_subset _ _ (List.take_subset _ _ hc))),
      filter_digits_self (d.drop 9) (fun c hc => h c (List.drop_subset _ _ hc))]
  have h1 : List.filter Char.isDigit ['.'] = [] := rfl
  have h3 : List.filter Char.isDigit ['-'] = [] := rfl
  rw [h1, h3]
  simp only [List.append_nil, List.nil_append, List.append_assoc]
  have s2 : (d.drop 6).take 3 ++ d.drop 9 = d.drop 6 := by
    have := slice_concat d 6 3
    norm_num at this
    exact this
  have s1 : (d.drop 3).take 3 ++ d.drop 6 = d.drop 3 := by
    have := slice_concat d 3 3
    norm_num at this
    exact this
  rw [s2, s1, List.take_append_drop]

/-- No character of a formatted CNPJ is whitespace. -/
theorem cnpjFmt_not_ws (d : List Char) (h : ∀ c ∈ d, c.isDigit = true) :
    ∀ c ∈ cnpjFmt d, isPyWS c = false := by
  intro c hc
  unfold cnpjFmt at hc
  simp only [List.mem_append, List.mem_singleton] at hc
  rcases hc with ((((((((hc | rfl) | hc) | rfl) | hc) | rfl) | hc) | rfl) | hc)
  · exact digit_not_ws c (h c (List.take_subset _ _ hc))
  · decide
  · exact digit_not_ws c (h c (List.drop_subset _ _ (List.take_subset _ _ hc)))
  · decide
  · exact digit_not_ws c (h c (List.drop_subset _ _ (List.take_subset _ _ hc)))
  · decide
  · exact digit_not_ws c (h c (List.drop_subset _ _ (List.take_subset _ _ hc)))
  · decide
  · exact digit_not_ws c (h c (List.drop_subset _ _ hc))

/-- No character of a formatted CPF is whitespace. -/
theorem cpfFmt_not_ws (d : List Char) (h : ∀ c ∈ d, c.isDigit = true) :
    ∀ c ∈ cpfFmt d, isPyWS c = false := by
  intro c hc
  unfold cpfFmt at hc
  simp only [List.mem_append, List.mem_singleton] at hc
  rcases hc with ((((((hc | rfl) | hc) | rfl) | hc) | rfl) | hc)
  · exact digit_not_ws c (h c (List.take_subset _ _ hc))
  · decide
  · exact digit_not_ws c (h c (List.drop_subset _ _ (List.take_subset _ _ hc)))
  · decide
  · exact digit_not_ws c (h c (List.drop_subset _ _ (List.take_subset _ _ hc)))
  · decide
  · exact digit_not_ws c (h c (List.drop_subset _ _ hc))

/-- Length of a formatted CNPJ: the 14 digits plus 4 separators. -/
theorem cnpjFmt_length (d : List Char) (h14 : d.length = 14) :
    (cnpjFmt d).length = 18 := by
  unfold cnpjFmt
  simp [List.length_append, List.length_take, List.length_drop, h14]

/-- Length of a formatted CPF: the 11 digits plus 3 separators. -/
theorem cpfFmt_length (d : List Char) (h11 : d.length = 11) :
    (cpfFmt d).length = 14 := by
  unfold cpfFmt
  simp [List.length_append, List.length_take, List.length_drop, h11]

/-- An all-digit list is not the character list of `"None"`. -/
theorem digits_ne_None (d : List Char) (h : ∀ c ∈ d, c.isDigit = true) :
    d ≠ "None".toList := by
  intro heq
  have hN : ('N' : Char).isDigit = true := h 'N' (by rw [heq]; decide)
  exact absurd hN (by decide)

/-- The character-list round trip through `String`. -/
theorem asString_toList (l : List Char) : (l.asString).toList = l := rfl

/-- `format_document` on a string whose characters are `nonDigits`-free
formatted output: a formatted CNPJ re-formats to itself. -/
theorem format_document_cnpj_fix (d : List Char)
    (hdig : ∀ c ∈ d, c.isDigit = true) (h14 : d.length = 14) :
    format_document (some (cnpjFmt d).asString) = (cnpjFmt d).asString := by
  have htl : ((cnpjFmt d).asString).toList = cnpjFmt d := asString_toList _
  have hstrip : pyStrip (cnpjFmt d) = cnpjFmt d :=
    pyStrip_eq_self _ (cnpjFmt_not_ws d hdig)
  have hlen : (cnpjFmt d).length = 18 := cnpjFmt_length d h14
  show (if pyStrip ((cnpjFmt d).asString).toList = "None".toList
        ∨ pyStrip ((cnpjFmt d).asString).toList = [] then ""
      else (fmtDocCore ((cnpjFmt d).asString).toList).asString) = (cnpjFmt d).asString
  rw [htl, hstrip]
  rw [if_neg ?_]
  · unfold fmtDocCore
    rw [filter_digits_cnpjFmt d hdig, if_pos h14]
  · rintro (hcontra | hcontra)
    · have := congrArg List.length hcontra
      rw [hlen] at this
      exact absurd this (by decide)
    · have := congrArg List.length hcontra
      rw [hlen] at this
      exact absurd this (by decide)

/-- A formatted CPF re-formats to itself. -/
theorem format_document_cpf_fix (d : List Char)
    (hdig : ∀ c ∈ d, c.isDigit = true) (h11 : d.length = 11) :
    format_document (some (cpfFmt d).asString) = (cpfFmt d).asString := by
  have htl : ((cpfFmt d).asString).toList = cpfFmt d := asString_toList _
  have hstrip : pyStrip (cpfFmt d) = cpfFmt d :=
    pyStrip_eq_self _ (cpfFmt_not_ws d hdig)
  have hlen : (cpfFmt d).length = 14 := cpfFmt_length d h11
  show (if pyStrip ((cpfFmt d).asString).toList = "None".toList
        ∨ pyStrip ((cpfFmt d).asString).toList = [] then ""
      else (fmtDocCore ((cpfFmt d).asString).toList).asString) = (cpfFmt d).asString
  rw [htl, hstrip]
  rw [if_neg ?_]
  · unfold fmtDocCore
    rw [filter_digits_cpfFmt d hdig]
    rw [if_neg (by omega), if_pos h11]
  · rintro (hcontra | hcontra)
    · have := congrArg List.length hcontra
      rw [hlen] at this
      exact absurd this (by decide)
    · have := congrArg List.length hcontra
      rw [hlen] at this
      exact absurd this (by decide)

/-- A non-empty bare digit string of any other length re-formats to
itself. -/
theorem format_document_digits_fix (d : List Char)
    (hdig : ∀ c ∈ d, c.isDigit = true) (hne : d ≠ [])
    (h14 : d.length ≠ 14) (h11 : d.length ≠ 11) :
    format_document (some d.asString) = d.asString := by
  have htl : (d.asString).toList = d := asString_toList _
  have hstrip : pyStrip d = d :=
    pyStrip_eq_self _ (fun c hc => digit_not_ws c (hdig c hc))
  show (if pyStrip (d.asString).toList = "None".toList
        ∨ pyStrip (d.asString).toList = [] then ""
      else (fmtDocCore (d.asString).toList).asString) = d.asString
  rw [htl, hstrip]
  rw [if_neg ?_]
  · unfold fmtDocCore
    rw [filter_digits_self d hdig, if_neg h14, if_neg h11]
  · rintro (hcontra | hcontra)
    · exact absurd hcontra (digits_ne_None d hdig)
    · exact absurd hcontra hne

/-- Claim C10: document-number formatting is idempotent — applying the
tax-id formatter twice gives the same result as applying it once: the empty
result is a fixed point, a formatted 14-digit CNPJ and an 11-digit CPF
re-format to themselves, and any other digit string re-applies to itself
unchanged. -/
theorem C10_format_document_idempotent (doc : Option String) :
    format_document (some (format_document doc)) = format_document doc := by
  have hempty : format_document (some "") = "" := by decide
  cases doc with
  | none =>
    show format_document (some "") = ""
    exact hempty
  | some s =>
    by_cases hg : pyStrip s.toList = "None".toList ∨ pyStrip s.toList = []
    · have h1 : format_document (some s) = "" := by
        show (if pyStrip s.toList = "None".toList ∨ pyStrip s.toList = [] then ""
            else (fmtDocCore s.toList).asString) = ""
        rw [if_pos hg]
      rw [h1]
      exact hempty
    · have h1 : format_document (some s) = (fmtDocCore s.toList).asString := by
        show (if pyStrip s.toList = "None".toList ∨ pyStrip s.toList = [] then ""
            else (fmtDocCore s.toList).asString) = (fmtDocCore s.toList).asString
        rw [if_neg hg]
      rw [h1]
      have hdig := digits_all s.toList
      unfold fmtDocCore
      by_cases h14 : (s.toList.filter Char.isDigit).length = 14
      · rw [if_pos h14]
        exact format_document_cnpj_fix _ hdig h14
      · rw [if_neg h14]
        by_cases h11 : (s.toList.filter Char.isDigit).length = 11
        · rw [if_pos h11]
          exact format_document_cpf_fix _ hdig h11
        · rw [if_neg h11]
          by_cases hnil : s.toList.filter Char.isDigit = []
          · rw [hnil]
            have : ([] : List Char).asString = "" := by decide
            rw [this]
            exact hempty
          · exact format_document_digits_fix _ hdig hnil h14 h11

